import Mathlib

/-!
Shallow embedding of the SentinelGate Policy Decision Client.

Two Python implementations are embedded side by side, mirroring the source:

* `SentinelGate.SDK` models `src/sdks/python/sentinelgate/client.py`
  (`SentinelGateClient.evaluate`, `_poll_approval`, `_cache_key`);
* `SentinelGate.Runtime` models
  `src/internal/domain/runtime/python/sitecustomize.py`
  (`_SentinelGateClient.evaluate`, `_poll_approval`, `_cache_key`,
  `_buffer_audit_event`).

JSON response dicts are embedded as records of `Option` fields (a missing
key is `none`; Python's `d.get(k, default)` is `Option.getD`).  The network
is a parameter: the single evaluate POST is an `Except Unit RespData`
(`.error` models any exception raised by `urlopen`/`json.loads`), and the
status-poll GET results are a function `Nat → Except Unit StatusData`
giving the outcome of the i-th poll attempt.  `time.sleep` calls are
counted in a `waits` field, `time.time()` is an explicit `Int` parameter,
and `warnings.warn` is recorded as a Boolean.
-/

namespace SentinelGate

/-- A parsed evaluate-response body (`resp_data` in the Python source).
Each field is `none` when the corresponding key is absent from the JSON
object, mirroring `dict.get`. -/
structure RespData where
  decision : Option String := none
  rule_id : Option String := none
  rule_name : Option String := none
  reason : Option String := none
  help_url : Option String := none
  help_text : Option String := none
  request_id : Option String := none
  latency_ms : Option Nat := none
deriving DecidableEq, Repr

/-- A parsed status-poll response body (`status_data` in the source). -/
structure StatusData where
  status : Option String := none
  reason : Option String := none
deriving DecidableEq, Repr

/-- Payload of a raised `PolicyDeniedError`. -/
structure DeniedInfo where
  message : String
  rule_id : String
  rule_name : String
  reason : String
  help_url : String
  help_text : String
deriving DecidableEq, Repr

/-- Observable outcome of one `evaluate` call: either a returned response
dict, or one of the exceptions the source can raise
(`PolicyDeniedError`, `ApprovalTimeoutError`, `ServerUnreachableError`,
and the runtime client's `PermissionError`). -/
inductive EvalOutcome where
  | ret (d : RespData)
  | policyDenied (e : DeniedInfo)
  | approvalTimeout (message : String) (request_id : String)
  | serverUnreachable (message : String)
  | permissionDenied (message : String)
deriving DecidableEq, Repr

/-- An `arguments` dict, embedded as its list of entries in insertion
order; `[]` stands both for `None` and for the (falsy) empty dict. -/
abbrev ArgList := List (String × String)

/-- Python's comparison on `(key, value)` tuples of strings: lexicographic,
key first.  `sorted(arguments.items())` sorts by this order. -/
def pairLe (a b : String × String) : Prop :=
  a.1 < b.1 ∨ (a.1 = b.1 ∧ a.2 ≤ b.2)

instance : DecidableRel pairLe := fun a b => by
  unfold pairLe; infer_instance

instance : IsTotal (String × String) pairLe where
  total a b := by
    rcases lt_trichotomy a.1 b.1 with h | h | h
    · exact Or.inl (Or.inl h)
    · rcases le_total a.2 b.2 with h2 | h2
      · exact Or.inl (Or.inr ⟨h, h2⟩)
      · exact Or.inr (Or.inr ⟨h.symm, h2⟩)
    · exact Or.inr (Or.inl h)

instance : IsTrans (String × String) pairLe where
  trans a b c hab hbc := by
    rcases hab with h1 | ⟨e1, v1⟩
    · rcases hbc with h2 | ⟨e2, v2⟩
      · exact Or.inl (h1.trans h2)
      · exact Or.inl (e2 ▸ h1)
    · rcases hbc with h2 | ⟨e2, v2⟩
      · exact Or.inl (e1 ▸ h2)
      · exact Or.inr ⟨e1.trans e2, v1.trans v2⟩

instance : IsAntisymm (String × String) pairLe where
  antisymm a b hab hba := by
    rcases hab with h1 | ⟨e1, v1⟩
    · rcases hba with h2 | ⟨e2, v2⟩
      · exact absurd (h1.trans h2) (lt_irrefl _)
      · exact absurd h1 (e2 ▸ lt_irrefl _)
    · rcases hba with h2 | ⟨e2, v2⟩
      · exact absurd h2 (e1 ▸ lt_irrefl _)
      · exact Prod.ext e1 (le_antisymm v1 v2)

/-- Models `sorted(arguments.items())`. -/
def sortPairs (l : ArgList) : ArgList :=
  List.insertionSort pairLe l

/-- Models `_cache_key(action_type, action_name, arguments)`: the tuple
`(action_type, action_name, args_repr)` where `args_repr` is the sorted
entry list when `arguments` is truthy and the empty representation
otherwise.  (`repr` over a list of string pairs is injective, so the
sorted list itself stands for the `repr` string.) -/
abbrev CacheKey := String × String × ArgList

def cacheKey (action_type action_name : String) (arguments : ArgList) :
    CacheKey :=
  (action_type, action_name, if arguments = [] then [] else sortPairs arguments)

/-- The LRU cache `self._cache`: an `OrderedDict` as a list of
`(key, (response, recorded_at))` entries, least recently used first. -/
abbrev Cache := List (CacheKey × RespData × Int)

/-- The cache-read block under `self._cache_lock`: on a fresh hit
(`now - entry[1] < ttl`) return the stored response and `move_to_end`;
on an expired entry delete it; otherwise leave the cache unchanged. -/
def cacheLookup (c : Cache) (k : CacheKey) (now ttl : Int) :
    Option RespData × Cache :=
  match c.find? (fun e => decide (e.1 = k)) with
  | none => (none, c)
  | some e =>
    if now - e.2.2 < ttl then
      (some e.2.1, c.eraseP (fun x => decide (x.1 = k)) ++ [e])
    else
      (none, c.eraseP (fun x => decide (x.1 = k)))

/-- Models `self._cache[cache_key] = v`: dict assignment keeps the position of an
existing key and appends a fresh key at the (most recently used) end. -/
def odSet (c : Cache) (k : CacheKey) (v : RespData × Int) : Cache :=
  if c.any (fun x => decide (x.1 = k)) then
    c.map (fun x => if x.1 = k then (k, v) else x)
  else
    c ++ [(k, v)]

/-- Models `while len(self._cache) > self._cache_max_size: popitem(last=False)`:
drop oldest entries from the front until within capacity. -/
def evict (c : Cache) (maxSize : Nat) : Cache :=
  c.drop (c.length - maxSize)

/-- The cache-insert block: store `(resp, now)` under `k`, then evict. -/
def cachePut (c : Cache) (k : CacheKey) (r : RespData) (now : Int)
    (maxSize : Nat) : Cache :=
  evict (odSet c k (r, now)) maxSize

/-- The constant `max_polls = 30`. -/
def maxPolls : Nat := 30

/-- The constant `poll_interval = 2` seconds. -/
def pollInterval : Nat := 2

/-- Per-instance configuration read in `__init__`. -/
structure Config where
  fail_mode : String
  cache_ttl : Int
  cache_max_size : Nat
deriving DecidableEq, Repr

namespace SDK

/-- The request-shaping inputs of `SentinelGateClient.evaluate` that do NOT
enter the cache key: identity, protocol, framework and destination.
`identity_name`/`identity_roles` are already resolved (env defaults
applied), `protocol` is already `protocol or self._default_protocol`.
`destination` and `framework` use `[]`/`""` for the falsy absent case. -/
structure ReqContext where
  identity_name : String
  identity_roles : List String
  protocol : String
  framework : String
  destination : List (String × String)
deriving DecidableEq, Repr

/-- The JSON body built by `evaluate` for the POST to
`/admin/api/v1/policy/evaluate`; optional keys are included only when
their Python value is truthy. -/
structure RequestBody where
  action_type : String
  action_name : String
  protocol : String
  identity_name : String
  identity_roles : List String
  framework : Option String
  arguments : Option ArgList
  destination : Option (List (String × String))
deriving DecidableEq, Repr

/-- The `body` dict construction in `SentinelGateClient.evaluate`. -/
def buildBody (action_type action_name : String) (arguments : ArgList)
    (ctx : ReqContext) : RequestBody :=
  { action_type := action_type
    action_name := action_name
    protocol := ctx.protocol
    identity_name := ctx.identity_name
    identity_roles := ctx.identity_roles
    framework := if ctx.framework = "" then none else some ctx.framework
    arguments := if arguments = [] then none else some arguments
    destination := if ctx.destination = [] then none else some ctx.destination }

/-- The allow dict returned by `_poll_approval` on status
`approved`/`allow`: reason "approved", propagating the original
response's `rule_id`/`rule_name`/`latency_ms`. -/
def approvedResp (requestId : String) (original : RespData) : RespData :=
  { decision := some "allow"
    reason := some "approved"
    request_id := some requestId
    rule_id := some (original.rule_id.getD "")
    rule_name := some (original.rule_name.getD "")
    help_url := some ""
    help_text := some ""
    latency_ms := some (original.latency_ms.getD 0) }

/-- The deny dict built by `_poll_approval` on status `denied`/`deny`. -/
def deniedResp (requestId : String) (original : RespData)
    (statusData : StatusData) : RespData :=
  { decision := some "deny"
    reason := some (statusData.reason.getD "denied by reviewer")
    request_id := some requestId
    rule_id := some (original.rule_id.getD "")
    rule_name := some (original.rule_name.getD "")
    help_url := some (original.help_url.getD "")
    help_text := some (original.help_text.getD "")
    latency_ms := some (original.latency_ms.getD 0) }

/-- The `PolicyDeniedError` raised from `_poll_approval`'s deny branch. -/
def mkDeniedFromPoll (result : RespData) : DeniedInfo :=
  { message := "Policy denied: " ++ result.reason.getD ""
    rule_id := result.rule_id.getD ""
    rule_name := result.rule_name.getD ""
    reason := result.reason.getD ""
    help_url := result.help_url.getD ""
    help_text := result.help_text.getD "" }

/-- One pass of the `for _ in range(max_polls)` loop of
`SentinelGateClient._poll_approval`, with `fuel` remaining iterations,
`i` the index of the next poll attempt and `waits` the `time.sleep`
calls performed so far.  Each iteration sleeps first, then polls; a
transport error or a non-terminal status consumes the attempt. -/
def pollLoop (requestId : String) (original : RespData)
    (raiseOnDeny : Bool) (polls : Nat → Except Unit StatusData) :
    Nat → Nat → Nat → EvalOutcome × Nat
  | _, 0, waits =>
    (.approvalTimeout
      ("Approval timed out after " ++ toString (maxPolls * pollInterval) ++ "s")
      requestId, waits)
  | i, fuel + 1, waits =>
    let waits' := waits + 1
    match polls i with
    | .error _ => pollLoop requestId original raiseOnDeny polls (i + 1) fuel waits'
    | .ok statusData =>
      let status := statusData.status.getD ""
      if status = "approved" ∨ status = "allow" then
        (.ret (approvedResp requestId original), waits')
      else if status = "denied" ∨ status = "deny" then
        let result := deniedResp requestId original statusData
        if raiseOnDeny then
          (.policyDenied (mkDeniedFromPoll result), waits')
        else
          (.ret result, waits')
      else
        pollLoop requestId original raiseOnDeny polls (i + 1) fuel waits'

/-- Models `SentinelGateClient._poll_approval`. -/
def pollApproval (requestId : String) (original : RespData)
    (raiseOnDeny : Bool) (polls : Nat → Except Unit StatusData) :
    EvalOutcome × Nat :=
  pollLoop requestId original raiseOnDeny polls 0 maxPolls 0

/-- The fail-open dict returned by `evaluate` on a transport error when
`fail_mode != "closed"`. -/
def failOpenResp : RespData :=
  { decision := some "allow"
    reason := some "fail-open"
    rule_id := some ""
    rule_name := some ""
    help_url := some ""
    help_text := some ""
    request_id := some ""
    latency_ms := some 0 }

/-- The `PolicyDeniedError` raised from `evaluate`'s deny branch. -/
def mkDeniedFromResp (resp : RespData) : DeniedInfo :=
  { message := "Policy denied: " ++ resp.reason.getD ""
    rule_id := resp.rule_id.getD ""
    rule_name := resp.rule_name.getD ""
    reason := resp.reason.getD ""
    help_url := resp.help_url.getD ""
    help_text := resp.help_text.getD "" }

/-- Everything observable about one `evaluate` call: its outcome, the
cache afterwards, the evaluate request sent (none on a cache hit), the
`warnings.warn` flag and the number of poller sleeps. -/
structure EvalResult where
  outcome : EvalOutcome
  cache : Cache
  requestSent : Option RequestBody
  warned : Bool
  waits : Nat
deriving Repr

/-- Models `SentinelGateClient.evaluate` as a function of the client
configuration, the cache state, the current time, the action, the
request context, `raise_on_deny`, and the network behaviour. -/
def evaluate (cfg : Config) (cache : Cache) (now : Int)
    (action_type action_name : String) (arguments : ArgList)
    (ctx : ReqContext) (raiseOnDeny : Bool)
    (transport : Except Unit RespData)
    (polls : Nat → Except Unit StatusData) : EvalResult :=
  let key := cacheKey action_type action_name arguments
  match cacheLookup cache key now cfg.cache_ttl with
  | (some cached, c') => ⟨.ret cached, c', none, false, 0⟩
  | (none, c') =>
    let body := buildBody action_type action_name arguments ctx
    match transport with
    | .error _ =>
      if cfg.fail_mode = "closed" then
        ⟨.serverUnreachable "SentinelGate server unreachable", c', some body,
          false, 0⟩
      else
        ⟨.ret failOpenResp, c', some body, true, 0⟩
    | .ok resp =>
      let decision := resp.decision.getD "allow"
      if decision = "approval_required" then
        let requestId := resp.request_id.getD ""
        if requestId = "" then
          ⟨.ret resp, c', some body, false, 0⟩
        else
          let pr := pollApproval requestId resp raiseOnDeny polls
          ⟨pr.1, c', some body, false, pr.2⟩
      else
        let c'' :=
          if decision = "allow" then cachePut c' key resp now cfg.cache_max_size
          else c'
        if decision = "deny" ∧ raiseOnDeny then
          ⟨.policyDenied (mkDeniedFromResp resp), c'', some body, false, 0⟩
        else
          ⟨.ret resp, c'', some body, false, 0⟩

end SDK

/-- An entry of the runtime client's `self._audit_buffer`, built by
`_buffer_audit_event`. -/
structure AuditEvent where
  action_type : String
  action_name : String
  arguments : ArgList
  decision : String
  reason : String
  timestamp : Int
  agent_id : String
deriving DecidableEq, Repr

namespace Runtime

/-- The deny dict returned by the runtime `_poll_approval` when the
attempt budget runs out: "approval timeout after 60s". -/
def timeoutResp (requestId : String) : RespData :=
  { decision := some "deny"
    reason := some ("approval timeout after " ++
      toString (maxPolls * pollInterval) ++ "s")
    request_id := some requestId }

/-- The runtime `_poll_approval` loop body; unlike the SDK's it never
raises, and its terminal dicts carry fewer keys. -/
def pollLoop (requestId : String) (original : RespData)
    (polls : Nat → Except Unit StatusData) :
    Nat → Nat → Nat → RespData × Nat
  | _, 0, waits => (timeoutResp requestId, waits)
  | i, fuel + 1, waits =>
    let waits' := waits + 1
    match polls i with
    | .error _ => pollLoop requestId original polls (i + 1) fuel waits'
    | .ok statusData =>
      let status := statusData.status.getD ""
      if status = "approved" ∨ status = "allow" then
        ({ decision := some "allow", reason := some "approved",
           request_id := some requestId }, waits')
      else if status = "denied" ∨ status = "deny" then
        ({ decision := some "deny"
           reason := some (statusData.reason.getD "denied by reviewer")
           request_id := some requestId
           help_text := some (original.help_text.getD "") }, waits')
      else
        pollLoop requestId original polls (i + 1) fuel waits'

/-- Models `_SentinelGateClient._poll_approval`. -/
def pollApproval (requestId : String) (original : RespData)
    (polls : Nat → Except Unit StatusData) : RespData × Nat :=
  pollLoop requestId original polls 0 maxPolls 0

/-- Observable effects of one runtime `evaluate` call; `auditAppended`
lists the events `_buffer_audit_event` appended during the call. -/
structure EvalResult where
  outcome : EvalOutcome
  cache : Cache
  requestSent : Bool
  auditAppended : List AuditEvent
  warned : Bool
  waits : Nat
deriving Repr

/-- Models `_SentinelGateClient.evaluate` (sitecustomize.py): no
`raise_on_deny` handling (its callers raise `PermissionError` on a deny
dict), audit events buffered on both fail paths, `PermissionError`
raised in fail-closed mode. -/
def evaluate (cfg : Config) (agentId : String) (cache : Cache) (now : Int)
    (action_type action_name : String) (arguments : ArgList)
    (transport : Except Unit RespData)
    (polls : Nat → Except Unit StatusData) : EvalResult :=
  let key := cacheKey action_type action_name arguments
  match cacheLookup cache key now cfg.cache_ttl with
  | (some cached, c') => ⟨.ret cached, c', false, [], false, 0⟩
  | (none, c') =>
    match transport with
    | .error _ =>
      if cfg.fail_mode = "closed" then
        ⟨.permissionDenied
            "SentinelGate: Action denied - server unreachable (fail-closed mode)",
          c', true,
          [⟨action_type, action_name, arguments, "deny", "fail-closed", now,
            agentId⟩],
          false, 0⟩
      else
        ⟨.ret { decision := some "allow", reason := some "fail-open" },
          c', true,
          [⟨action_type, action_name, arguments, "allow", "fail-open", now,
            agentId⟩],
          true, 0⟩
    | .ok resp =>
      let decision := resp.decision.getD "allow"
      if decision = "approval_required" then
        let requestId := resp.request_id.getD ""
        if requestId = "" then
          ⟨.ret resp, c', true, [], false, 0⟩
        else
          let pr := pollApproval requestId resp polls
          ⟨.ret pr.1, c', true, [], false, pr.2⟩
      else
        let c'' :=
          if decision = "allow" then cachePut c' key resp now cfg.cache_max_size
          else c'
        ⟨.ret resp, c'', true, [], false, 0⟩

end Runtime

/-! Helper lemmas about the poll loop -/

/-- A poll attempt outcome that the loop body does not treat as terminal:
either the transport raised, or the status string is none of
`approved`/`allow`/`denied`/`deny` (e.g. `pending` or missing). -/
def nonTerminalPoll : Except Unit StatusData → Prop
  | .error _ => True
  | .ok sd =>
    sd.status.getD "" ≠ "approved" ∧ sd.status.getD "" ≠ "allow" ∧
    sd.status.getD "" ≠ "denied" ∧ sd.status.getD "" ≠ "deny"

instance : DecidablePred nonTerminalPoll := fun r => by
  cases r <;> · unfold nonTerminalPoll; infer_instance

theorem SDK.pollLoop_step_nonterm (rid : String) (orig : RespData)
    (rod : Bool) (polls : Nat → Except Unit StatusData) (i fuel waits : Nat)
    (h : nonTerminalPoll (polls i)) :
    SDK.pollLoop rid orig rod polls i (fuel + 1) waits =
      SDK.pollLoop rid orig rod polls (i + 1) fuel (waits + 1) := by
  cases hp : polls i with
  | error e => simp [SDK.pollLoop, hp]
  | ok sd =>
    rw [hp] at h
    obtain ⟨h1, h2, h3, h4⟩ := h
    simp [SDK.pollLoop, hp, h1, h2, h3, h4]

theorem SDK.pollLoop_timeout (rid : String) (orig : RespData) (rod : Bool)
    (polls : Nat → Except Unit StatusData) :
    ∀ (fuel i waits : Nat),
      (∀ j, i ≤ j → j < i + fuel → nonTerminalPoll (polls j)) →
      SDK.pollLoop rid orig rod polls i fuel waits =
        (.approvalTimeout
          ("Approval timed out after " ++ toString (maxPolls * pollInterval) ++ "s")
          rid, waits + fuel) := by
  intro fuel
  induction fuel with
  | zero => intro i waits _; simp [SDK.pollLoop]
  | succ n ih =>
    intro i waits h
    rw [SDK.pollLoop_step_nonterm rid orig rod polls i n waits
      (h i (le_refl i) (by omega))]
    rw [ih (i + 1) (waits + 1) (fun j hj1 hj2 => h j (by omega) (by omega))]
    congr 1
    omega

theorem SDK.pollLoop_reach_approved (rid : String) (orig : RespData)
    (rod : Bool) (polls : Nat → Except Unit StatusData) :
    ∀ (n i fuel waits : Nat),
      n < fuel →
      (∀ j, j < n → nonTerminalPoll (polls (i + j))) →
      (∃ sd, polls (i + n) = .ok sd ∧
        (sd.status.getD "" = "approved" ∨ sd.status.getD "" = "allow")) →
      SDK.pollLoop rid orig rod polls i fuel waits =
        (.ret (SDK.approvedResp rid orig), waits + n + 1) := by
  intro n
  induction n with
  | zero =>
    intro i fuel waits hfuel _ hterm
    obtain ⟨sd, hp, hst⟩ := hterm
    obtain ⟨f, rfl⟩ : ∃ f, fuel = f + 1 := ⟨fuel - 1, by omega⟩
    rw [Nat.add_zero] at hp
    simp [SDK.pollLoop, hp, hst]
  | succ m ih =>
    intro i fuel waits hfuel hpre hterm
    obtain ⟨f, rfl⟩ : ∃ f, fuel = f + 1 := ⟨fuel - 1, by omega⟩
    rw [SDK.pollLoop_step_nonterm rid orig rod polls i f waits
      (by simpa using hpre 0 (by omega))]
    rw [ih (i + 1) f (waits + 1) (by omega)
      (fun j hj => by
        have := hpre (j + 1) (by omega)
        simpa [Nat.add_assoc, Nat.add_comm 1 j] using this)
      (by
        obtain ⟨sd, hp, hst⟩ := hterm
        exact ⟨sd, by simpa [Nat.add_assoc, Nat.add_comm 1 m] using hp, hst⟩)]
    congr 1
    omega

theorem Runtime.runtimePollLoop_step_nonterm (rid : String) (orig : RespData)
    (polls : Nat → Except Unit StatusData) (i fuel waits : Nat)
    (h : nonTerminalPoll (polls i)) :
    Runtime.pollLoop rid orig polls i (fuel + 1) waits =
      Runtime.pollLoop rid orig polls (i + 1) fuel (waits + 1) := by
  cases hp : polls i with
  | error e => simp [Runtime.pollLoop, hp]
  | ok sd =>
    rw [hp] at h
    obtain ⟨h1, h2, h3, h4⟩ := h
    simp [Runtime.pollLoop, hp, h1, h2, h3, h4]

theorem Runtime.runtimePollLoop_timeout (rid : String) (orig : RespData)
    (polls : Nat → Except Unit StatusData) :
    ∀ (fuel i waits : Nat),
      (∀ j, i ≤ j → j < i + fuel → nonTerminalPoll (polls j)) →
      Runtime.pollLoop rid orig polls i fuel waits =
        (Runtime.timeoutResp rid, waits + fuel) := by
  intro fuel
  induction fuel with
  | zero => intro i waits _; simp [Runtime.pollLoop]
  | succ n ih =>
    intro i waits h
    rw [Runtime.runtimePollLoop_step_nonterm rid orig polls i n waits
      (h i (le_refl i) (by omega))]
    rw [ih (i + 1) (waits + 1) (fun j hj1 hj2 => h j (by omega) (by omega))]
    congr 1
    omega

/-! Helper lemmas about the cache -/

theorem cacheLookup_nil (k : CacheKey) (now ttl : Int) :
    cacheLookup [] k now ttl = (none, []) := rfl

theorem cacheLookup_singleton_fresh (k : CacheKey) (r : RespData)
    (ts now ttl : Int) (h : now - ts < ttl) :
    cacheLookup [(k, r, ts)] k now ttl = (some r, [(k, r, ts)]) := by
  simp [cacheLookup, List.find?, List.eraseP, h]

theorem cacheLookup_singleton_expired (k : CacheKey) (r : RespData)
    (ts now ttl : Int) (h : ttl ≤ now - ts) :
    cacheLookup [(k, r, ts)] k now ttl = (none, []) := by
  simp [cacheLookup, List.find?, List.eraseP, not_lt.mpr h]

/-- Whenever the cache lookup misses, `evaluate` sends the evaluate
request (every non-hit branch of the source sends it). -/
theorem SDK.evaluate_miss_sends (cfg : Config) (cache : Cache) (now : Int)
    (action_type action_name : String) (args : ArgList)
    (ctx : SDK.ReqContext) (rod : Bool) (transport : Except Unit RespData)
    (polls : Nat → Except Unit StatusData)
    (h : (cacheLookup cache (cacheKey action_type action_name args) now
      cfg.cache_ttl).1 = none) :
    (SDK.evaluate cfg cache now action_type action_name args ctx rod
        transport polls).requestSent =
      some (SDK.buildBody action_type action_name args ctx) := by
  simp only [SDK.evaluate]
  rcases hlk : cacheLookup cache (cacheKey action_type action_name args) now
    cfg.cache_ttl with ⟨o, c'⟩
  rw [hlk] at h
  cases o with
  | some cached => exact absurd h (by simp)
  | none =>
    cases transport with
    | error e => dsimp only; split <;> rfl
    | ok r => dsimp only; split <;> (try split) <;> (try split) <;> rfl

theorem mem_cacheLookup_snd {c : Cache} {k : CacheKey} {now ttl : Int}
    {e : CacheKey × RespData × Int}
    (h : e ∈ (cacheLookup c k now ttl).2) : e ∈ c := by
  unfold cacheLookup at h
  cases hf : c.find? (fun x => decide (x.1 = k)) with
  | none => rw [hf] at h; exact h
  | some e0 =>
    rw [hf] at h
    dsimp only at h
    have he0 : e0 ∈ c := List.mem_of_find?_eq_some hf
    by_cases hlt : now - e0.2.2 < ttl
    · rw [if_pos hlt] at h
      rcases List.mem_append.1 h with h | h
      · exact List.mem_of_mem_eraseP h
      · simp at h; exact h ▸ he0
    · rw [if_neg hlt] at h
      exact List.mem_of_mem_eraseP h

theorem mem_odSet {c : Cache} {k : CacheKey} {v : RespData × Int}
    {e : CacheKey × RespData × Int} (h : e ∈ odSet c k v) :
    e ∈ c ∨ e = (k, v) := by
  unfold odSet at h
  split at h
  · obtain ⟨x, hx, hfx⟩ := List.mem_map.1 h
    by_cases hk : x.1 = k
    · rw [if_pos hk] at hfx
      exact Or.inr hfx.symm
    · rw [if_neg hk] at hfx
      exact Or.inl (hfx ▸ hx)
  · rcases List.mem_append.1 h with h | h
    · exact Or.inl h
    · simp at h; exact Or.inr h

theorem mem_cachePut {c : Cache} {k : CacheKey} {r : RespData} {now : Int}
    {maxSize : Nat} {e : CacheKey × RespData × Int}
    (h : e ∈ cachePut c k r now maxSize) : e ∈ c ∨ e = (k, r, now) := by
  unfold cachePut evict at h
  exact mem_odSet (List.mem_of_mem_drop h)

/-- Any entry of the cache after an `evaluate` call either was already
present or stores a response whose decision string is "allow": the insert
in the source is guarded by `decision == "allow"`. -/
theorem SDK.evaluate_cache_mem (cfg : Config) (cache : Cache) (now : Int)
    (action_type action_name : String) (args : ArgList)
    (ctx : SDK.ReqContext) (rod : Bool) (transport : Except Unit RespData)
    (polls : Nat → Except Unit StatusData) (e : CacheKey × RespData × Int)
    (h : e ∈ (SDK.evaluate cfg cache now action_type action_name args ctx rod
      transport polls).cache) :
    e ∈ cache ∨ e.2.1.decision.getD "allow" = "allow" := by
  simp only [SDK.evaluate] at h
  rcases hlk : cacheLookup cache (cacheKey action_type action_name args) now
    cfg.cache_ttl with ⟨o, c'⟩
  rw [hlk] at h
  have hc' : ∀ x, x ∈ c' → x ∈ cache := fun x hx =>
    @mem_cacheLookup_snd cache (cacheKey action_type action_name args) now
      cfg.cache_ttl x (by rw [hlk]; exact hx)
  cases o with
  | some cached => exact Or.inl (hc' e h)
  | none =>
    cases transport with
    | error err =>
      dsimp only at h
      split at h <;> exact Or.inl (hc' e h)
    | ok resp =>
      dsimp only at h
      by_cases hd : resp.decision.getD "allow" = "approval_required"
      · rw [if_pos hd] at h
        split at h <;> exact Or.inl (hc' e h)
      · rw [if_neg hd] at h
        by_cases ha : resp.decision.getD "allow" = "allow"
        · rw [if_pos ha] at h
          split at h <;>
          · rcases mem_cachePut (by exact h) with hm | hm
            · exact Or.inl (hc' e hm)
            · exact Or.inr (by rw [hm]; exact ha)
        · rw [if_neg ha] at h
          split at h <;> exact Or.inl (hc' e h)

/-! Claim theorems -/

/-- C1: if no poll attempt among the first 30 yields a terminal status
(each is `pending`, another non-terminal status, or a swallowed transport
error), the approval poller stops after exactly the maximum attempt count
30 and resolves Denied: the runtime poller returns a Deny decision with
reason "approval timeout after 60s" (budget 30 × interval 2s), and the SDK
poller raises `ApprovalTimeoutError`; neither resolves to Allow. -/
theorem claim_C1_poll_timeout_denied
    (rid : String) (orig : RespData) (rod : Bool)
    (polls : Nat → Except Unit StatusData)
    (h : ∀ j, j < maxPolls → nonTerminalPoll (polls j)) :
    Runtime.pollApproval rid orig polls =
      ({ decision := some "deny",
         reason := some "approval timeout after 60s",
         request_id := some rid }, 30) ∧
    SDK.pollApproval rid orig rod polls =
      (.approvalTimeout "Approval timed out after 60s" rid, 30) := by
  constructor
  · rw [Runtime.pollApproval,
      Runtime.runtimePollLoop_timeout rid orig polls maxPolls 0 0
        (fun j h1 h2 => h j (by omega))]
    rfl
  · rw [SDK.pollApproval,
      SDK.pollLoop_timeout rid orig rod polls maxPolls 0 0
        (fun j h1 h2 => h j (by omega))]
    rfl

theorem claim_C1_poll_timeout_denied_witness :
    Runtime.pollApproval "req-1" {}
        (fun _ => .ok { status := some "pending" }) =
      ({ decision := some "deny",
         reason := some "approval timeout after 60s",
         request_id := some "req-1" }, 30) ∧
    SDK.pollApproval "req-1" {} true
        (fun _ => .ok { status := some "pending" }) =
      (.approvalTimeout "Approval timed out after 60s" "req-1", 30) :=
  claim_C1_poll_timeout_denied "req-1" {} true _ (fun _ _ => by decide)

/-- C7: the cache key is insensitive to the insertion order of the
argument entries: for identical `action_type`/`action_name` and argument
lists that are permutations of each other, `_cache_key` yields the same
key (it sorts the entries first). -/
theorem claim_C7_cache_key_order_irrelevant
    (action_type action_name : String) (args1 args2 : ArgList)
    (h : args1.Perm args2) :
    cacheKey action_type action_name args1 =
      cacheKey action_type action_name args2 := by
  have hsort : sortPairs args1 = sortPairs args2 :=
    List.eq_of_perm_of_sorted
      (((List.perm_insertionSort pairLe args1).trans h).trans
        (List.perm_insertionSort pairLe args2).symm)
      (List.sorted_insertionSort pairLe args1)
      (List.sorted_insertionSort pairLe args2)
  unfold cacheKey
  by_cases h1 : args1 = []
  · subst h1
    have h2 : args2 = [] := h.symm.eq_nil
    simp [h2]
  · have h2 : args2 ≠ [] := fun he => h1 (by rw [he] at h; exact h.eq_nil)
    simp [h1, h2, hsort]

theorem claim_C7_cache_key_order_irrelevant_witness :
    cacheKey "command_exec" "ls" [("b", "2"), ("a", "1")] =
      cacheKey "command_exec" "ls" [("a", "1"), ("b", "2")] :=
  claim_C7_cache_key_order_irrelevant "command_exec" "ls" _ _
    (List.Perm.swap ("a", "1") ("b", "2") [])

/-- C2: on a transport failure with `fail_mode = "closed"`, the runtime
client buffers an audit event recording a synthetic Deny with reason
"fail-closed" and raises its unreachable-server error, and the SDK client
raises `ServerUnreachableError`; in both, starting from the empty cache the
cache stays empty, so while the transport always fails every evaluate call
raises and never returns a decision. -/
theorem claim_C2_fail_closed_raises
    (ttl : Int) (maxSize : Nat) (agentId : String) (now : Int)
    (action_type action_name : String) (args : ArgList)
    (ctx : SDK.ReqContext) (rod : Bool)
    (polls : Nat → Except Unit StatusData) :
    SDK.evaluate ⟨"closed", ttl, maxSize⟩ [] now action_type action_name args
        ctx rod (.error ()) polls =
      ⟨.serverUnreachable "SentinelGate server unreachable", [],
        some (SDK.buildBody action_type action_name args ctx), false, 0⟩ ∧
    Runtime.evaluate ⟨"closed", ttl, maxSize⟩ agentId [] now action_type
        action_name args (.error ()) polls =
      ⟨.permissionDenied
          "SentinelGate: Action denied - server unreachable (fail-closed mode)",
        [], true,
        [⟨action_type, action_name, args, "deny", "fail-closed", now, agentId⟩],
        false, 0⟩ := by
  constructor <;> rfl

/-- C3: on a transport failure with `fail_mode = "open"`, both clients emit
a non-fatal warning and return an Allow decision with reason "fail-open"
(the runtime client also buffers a synthetic Allow audit event); the
decision is never stored in the cache (the cache stays empty), so a
subsequent evaluate of the same action sends the evaluate request again. -/
theorem claim_C3_fail_open_allow_uncached
    (ttl : Int) (maxSize : Nat) (agentId : String) (now now' : Int)
    (action_type action_name : String) (args : ArgList)
    (ctx : SDK.ReqContext) (rod : Bool)
    (polls : Nat → Except Unit StatusData) :
    SDK.evaluate ⟨"open", ttl, maxSize⟩ [] now action_type action_name args
        ctx rod (.error ()) polls =
      ⟨.ret
          { decision := some "allow", reason := some "fail-open",
            rule_id := some "", rule_name := some "", help_url := some "",
            help_text := some "", request_id := some "", latency_ms := some 0 },
        [], some (SDK.buildBody action_type action_name args ctx), true, 0⟩ ∧
    Runtime.evaluate ⟨"open", ttl, maxSize⟩ agentId [] now action_type
        action_name args (.error ()) polls =
      ⟨.ret { decision := some "allow", reason := some "fail-open" },
        [], true,
        [⟨action_type, action_name, args, "allow", "fail-open", now, agentId⟩],
        true, 0⟩ ∧
    (SDK.evaluate ⟨"open", ttl, maxSize⟩
        (SDK.evaluate ⟨"open", ttl, maxSize⟩ [] now action_type action_name
          args ctx rod (.error ()) polls).cache
        now' action_type action_name args ctx rod (.error ())
        polls).requestSent =
      some (SDK.buildBody action_type action_name args ctx) := by
  refine ⟨rfl, rfl, rfl⟩

/-- C8: when the server response has decision `approval_required` but an
empty `request_id`, evaluate performs no polling (zero waits, the poll
results are irrelevant) and returns the response dict unchanged without
raising, for either value of `raise_on_deny`; likewise for the runtime
client. -/
theorem claim_C8_approval_required_empty_request_id
    (cfg : Config) (agentId : String) (now : Int)
    (action_type action_name : String) (args : ArgList)
    (ctx : SDK.ReqContext) (rod : Bool)
    (polls : Nat → Except Unit StatusData) (resp : RespData)
    (hdec : resp.decision = some "approval_required")
    (hrid : resp.request_id.getD "" = "") :
    SDK.evaluate cfg [] now action_type action_name args ctx rod
        (.ok resp) polls =
      ⟨.ret resp, [], some (SDK.buildBody action_type action_name args ctx),
        false, 0⟩ ∧
    Runtime.evaluate cfg agentId [] now action_type action_name args
        (.ok resp) polls =
      ⟨.ret resp, [], true, [], false, 0⟩ := by
  constructor
  · simp [SDK.evaluate, cacheLookup, hdec, hrid]
  · simp [Runtime.evaluate, cacheLookup, hdec, hrid]

theorem claim_C8_approval_required_empty_request_id_witness :
    SDK.evaluate ⟨"open", 5, 1000⟩ [] 0 "command_exec" "deploy" []
        ⟨"sdk-client", ["agent"], "sdk", "", []⟩ true
        (.ok { decision := some "approval_required" }) (fun _ => .error ()) =
      ⟨.ret { decision := some "approval_required" }, [],
        some (SDK.buildBody "command_exec" "deploy" []
          ⟨"sdk-client", ["agent"], "sdk", "", []⟩),
        false, 0⟩ ∧
    Runtime.evaluate ⟨"open", 5, 1000⟩ "agent-1" [] 0 "command_exec" "deploy"
        [] (.ok { decision := some "approval_required" }) (fun _ => .error ()) =
      ⟨.ret { decision := some "approval_required" }, [], true, [], false, 0⟩ :=
  claim_C8_approval_required_empty_request_id ⟨"open", 5, 1000⟩ "agent-1" 0
    "command_exec" "deploy" [] ⟨"sdk-client", ["agent"], "sdk", "", []⟩ true
    (fun _ => .error ()) { decision := some "approval_required" } rfl rfl

/-- C4 counterexample: with poll responses `[pending, pending, approved]`
the poller sleeps before EVERY attempt (including the one that observes
"approved"), so evaluate returns the Allow/"approved" decision after
exactly 3 waits — not 2 as claimed. -/
theorem claim_C4_counterexample :
    SDK.evaluate ⟨"open", 5, 1000⟩ [] 0 "command_exec" "deploy" []
        ⟨"sdk-client", ["agent"], "sdk", "", []⟩ true
        (.ok { decision := some "approval_required",
               rule_id := some "rule-approval",
               rule_name := some "needs-approval",
               request_id := some "req-approval-1" })
        (fun i => .ok (if i < 2 then { status := some "pending" }
                       else { status := some "approved" })) =
      ⟨.ret { decision := some "allow", rule_id := some "rule-approval",
              rule_name := some "needs-approval", reason := some "approved",
              help_url := some "", help_text := some "",
              request_id := some "req-approval-1", latency_ms := some 0 },
        [], some (SDK.buildBody "command_exec" "deploy" []
          ⟨"sdk-client", ["agent"], "sdk", "", []⟩), false, 3⟩ ∧
    (3 : Nat) ≠ 2 := by
  exact ⟨rfl, by decide⟩

/-- C4 (amended): the approval poller waits one fixed interval before each
poll attempt, including the first; given the poll-response sequence
`[pending, pending, approved]`, evaluate returns an Allow decision with
reason "approved" that propagates the original evaluation response's
`rule_id` and `rule_name`, after exactly 3 waits (one per attempt); given
`[pending]*30`, it stops after 30 waits with no further polling (the
result is determined by the first 30 poll responses alone). -/
theorem claim_C4_poll_wait_counts
    (cfg : Config) (now : Int) (action_type action_name : String)
    (args : ArgList) (ctx : SDK.ReqContext) (rod : Bool)
    (orig : RespData) (rid : String)
    (hdec : orig.decision.getD "allow" = "approval_required")
    (hrid : orig.request_id.getD "" = rid) (hne : rid ≠ "")
    (polls polls30 : Nat → Except Unit StatusData)
    (hp0 : polls 0 = .ok { status := some "pending" })
    (hp1 : polls 1 = .ok { status := some "pending" })
    (hp2 : polls 2 = .ok { status := some "approved" })
    (h30 : ∀ i, i < 30 → polls30 i = .ok { status := some "pending" }) :
    SDK.evaluate cfg [] now action_type action_name args ctx rod (.ok orig)
        polls =
      ⟨.ret { decision := some "allow",
              rule_id := some (orig.rule_id.getD ""),
              rule_name := some (orig.rule_name.getD ""),
              reason := some "approved", help_url := some "",
              help_text := some "", request_id := some rid,
              latency_ms := some (orig.latency_ms.getD 0) },
        [], some (SDK.buildBody action_type action_name args ctx), false,
        3⟩ ∧
    SDK.evaluate cfg [] now action_type action_name args ctx rod (.ok orig)
        polls30 =
      ⟨.approvalTimeout "Approval timed out after 60s" rid, [],
        some (SDK.buildBody action_type action_name args ctx), false,
        30⟩ := by
  have happroved : SDK.pollApproval rid orig rod polls =
      (.ret (SDK.approvedResp rid orig), 3) := by
    rw [SDK.pollApproval]
    rw [SDK.pollLoop_reach_approved rid orig rod polls 2 0 maxPolls 0
      (by decide)
      (fun j hj => by
        interval_cases j
        · rw [hp0]; decide
        · rw [hp1]; decide)
      ⟨{ status := some "approved" }, by rw [hp2], by decide⟩]
  have htimeout : SDK.pollApproval rid orig rod polls30 =
      (.approvalTimeout "Approval timed out after 60s" rid, 30) := by
    rw [SDK.pollApproval]
    rw [SDK.pollLoop_timeout rid orig rod polls30 maxPolls 0 0
      (fun j h1 h2 => by
        rw [h30 j (by revert h2; rw [maxPolls]; omega)]; decide)]
    rfl
  constructor
  · simp only [SDK.evaluate, cacheLookup_nil]
    rw [if_pos hdec, hrid, if_neg hne, happroved]
    rfl
  · simp only [SDK.evaluate, cacheLookup_nil]
    rw [if_pos hdec, hrid, if_neg hne, htimeout]

theorem claim_C4_poll_wait_counts_witness :
    SDK.evaluate ⟨"open", 5, 1000⟩ [] 0 "command_exec" "deploy" []
        ⟨"sdk-client", ["agent"], "sdk", "", []⟩ false
        (.ok { decision := some "approval_required",
               request_id := some "req-9" })
        (fun i => .ok (if i < 2 then { status := some "pending" }
                       else { status := some "approved" })) =
      ⟨.ret { decision := some "allow", rule_id := some "",
              rule_name := some "", reason := some "approved",
              help_url := some "", help_text := some "",
              request_id := some "req-9", latency_ms := some 0 },
        [], some (SDK.buildBody "command_exec" "deploy" []
          ⟨"sdk-client", ["agent"], "sdk", "", []⟩), false, 3⟩ ∧
    SDK.evaluate ⟨"open", 5, 1000⟩ [] 0 "command_exec" "deploy" []
        ⟨"sdk-client", ["agent"], "sdk", "", []⟩ false
        (.ok { decision := some "approval_required",
               request_id := some "req-9" })
        (fun _ => .ok { status := some "pending" }) =
      ⟨.approvalTimeout "Approval timed out after 60s" "req-9", [],
        some (SDK.buildBody "command_exec" "deploy" []
          ⟨"sdk-client", ["agent"], "sdk", "", []⟩), false, 30⟩ :=
  claim_C4_poll_wait_counts ⟨"open", 5, 1000⟩ 0 "command_exec" "deploy" []
    ⟨"sdk-client", ["agent"], "sdk", "", []⟩ false
    { decision := some "approval_required", request_id := some "req-9" }
    "req-9" rfl rfl (by decide)
    (fun i => .ok (if i < 2 then { status := some "pending" }
                   else { status := some "approved" }))
    (fun _ => .ok { status := some "pending" })
    rfl rfl rfl (fun _ _ => rfl)

/-- C9 counterexample: with `fail_mode = "closed"`, a response body that
parses but is missing the `decision` field is NOT blocked: `evaluate`
defaults the decision to "allow", returns the response, and even caches
it.  The locally-determined fallback ignores the fail mode, refuting the
claim that it blocks when `fail_mode = "closed"`. -/
theorem claim_C9_counterexample :
    SDK.evaluate ⟨"closed", 5, 1000⟩ [] 0 "command_exec" "ls" []
        ⟨"sdk-client", ["agent"], "sdk", "", []⟩ true
        (.ok {}) (fun _ => .error ()) =
      ⟨.ret {}, [(("command_exec", "ls", []), {}, 0)],
        some ⟨"command_exec", "ls", "sdk", "sdk-client", ["agent"],
          none, none, none⟩,
        false, 0⟩ := by
  rfl

/-- C9 (amended): for every parsed server response whose decision field is
missing or holds a string other than "deny" and "approval_required",
evaluate never raises: it returns the response dict unchanged, treating it
as allow (a missing field defaults to "allow"); the response is cached
exactly when the effective decision string is "allow" (in particular a
missing field is cached), and none of this depends on `fail_mode`. -/
theorem claim_C9_fallback_ignores_fail_mode
    (fm : String) (ttl now : Int) (action_type action_name : String)
    (args : ArgList) (ctx : SDK.ReqContext) (rod : Bool)
    (polls : Nat → Except Unit StatusData) (resp : RespData)
    (h1 : resp.decision.getD "allow" ≠ "deny")
    (h2 : resp.decision.getD "allow" ≠ "approval_required") :
    SDK.evaluate ⟨fm, ttl, 1000⟩ [] now action_type action_name args ctx rod
        (.ok resp) polls =
      ⟨.ret resp,
        if resp.decision.getD "allow" = "allow"
          then [(cacheKey action_type action_name args, resp, now)] else [],
        some (SDK.buildBody action_type action_name args ctx), false, 0⟩ := by
  simp only [SDK.evaluate, cacheLookup, List.find?_nil]
  rw [if_neg h2]
  by_cases h3 : resp.decision.getD "allow" = "allow"
  · rw [if_pos h3, if_pos h3]
    have : ¬(resp.decision.getD "allow" = "deny" ∧ rod = true) :=
      fun hc => h1 hc.1
    simp only [cachePut, odSet, evict, List.any_nil, Bool.false_eq_true,
      if_false, List.nil_append, List.length_cons, List.length_nil]
    rw [if_neg this]
    norm_num
  · rw [if_neg h3, if_neg h3]
    have : ¬(resp.decision.getD "allow" = "deny" ∧ rod = true) :=
      fun hc => h1 hc.1
    rw [if_neg this]

/-- C5: only Allow decisions are ever inserted into the decision cache:
after any evaluate call every cache entry either predates the call or
stores a response whose decision is "allow" (so Deny and ApprovalRequired
responses are never memoized), and two consecutive evaluations of an
action the server denies both send the evaluate request. -/
theorem claim_C5_only_allow_cached
    (cfg : Config) (cache : Cache) (now now1 now2 : Int)
    (action_type action_name : String) (args : ArgList)
    (ctx : SDK.ReqContext) (rod : Bool) (transport : Except Unit RespData)
    (polls : Nat → Except Unit StatusData) (denyResp : RespData)
    (hdeny : denyResp.decision.getD "allow" = "deny") :
    (∀ e, e ∈ (SDK.evaluate cfg cache now action_type action_name args ctx
        rod transport polls).cache →
      e ∈ cache ∨ e.2.1.decision.getD "allow" = "allow") ∧
    SDK.evaluate cfg [] now1 action_type action_name args ctx false
        (.ok denyResp) polls =
      ⟨.ret denyResp, [],
        some (SDK.buildBody action_type action_name args ctx), false, 0⟩ ∧
    (SDK.evaluate cfg
        (SDK.evaluate cfg [] now1 action_type action_name args ctx false
          (.ok denyResp) polls).cache
        now2 action_type action_name args ctx false (.ok denyResp)
        polls).requestSent =
      some (SDK.buildBody action_type action_name args ctx) := by
  have h2 : denyResp.decision.getD "allow" ≠ "approval_required" := by
    rw [hdeny]; decide
  have h3 : denyResp.decision.getD "allow" ≠ "allow" := by
    rw [hdeny]; decide
  have h4 : ¬(denyResp.decision.getD "allow" = "deny" ∧ (false : Bool) = true) := by
    simp
  have hsecond : SDK.evaluate cfg [] now1 action_type action_name args ctx
      false (.ok denyResp) polls =
      ⟨.ret denyResp, [],
        some (SDK.buildBody action_type action_name args ctx), false, 0⟩ := by
    simp only [SDK.evaluate, cacheLookup_nil]
    rw [if_neg h2, if_neg h4, if_neg h3]
  refine ⟨fun e he => SDK.evaluate_cache_mem cfg cache now action_type
    action_name args ctx rod transport polls e he, hsecond, ?_⟩
  rw [hsecond]
  exact SDK.evaluate_miss_sends cfg [] now2 action_type action_name args ctx
    false (.ok denyResp) polls (by rw [cacheLookup_nil])

theorem claim_C5_only_allow_cached_witness :
    ((∀ e, e ∈ (SDK.evaluate ⟨"open", 5, 1000⟩ [] 0 "command_exec" "rm" []
        ⟨"sdk-client", ["agent"], "sdk", "", []⟩ true
        (.ok { decision := some "deny", rule_id := some "rule-1" })
        (fun _ => .error ())).cache →
      e ∈ ([] : Cache) ∨ e.2.1.decision.getD "allow" = "allow") ∧
    SDK.evaluate ⟨"open", 5, 1000⟩ [] 1 "command_exec" "rm" []
        ⟨"sdk-client", ["agent"], "sdk", "", []⟩ false
        (.ok { decision := some "deny", rule_id := some "rule-1" })
        (fun _ => .error ()) =
      ⟨.ret { decision := some "deny", rule_id := some "rule-1" }, [],
        some (SDK.buildBody "command_exec" "rm" []
          ⟨"sdk-client", ["agent"], "sdk", "", []⟩), false, 0⟩ ∧
    (SDK.evaluate ⟨"open", 5, 1000⟩
        (SDK.evaluate ⟨"open", 5, 1000⟩ [] 1 "command_exec" "rm" []
          ⟨"sdk-client", ["agent"], "sdk", "", []⟩ false
          (.ok { decision := some "deny", rule_id := some "rule-1" })
          (fun _ => .error ())).cache
        2 "command_exec" "rm" []
        ⟨"sdk-client", ["agent"], "sdk", "", []⟩ false
        (.ok { decision := some "deny", rule_id := some "rule-1" })
        (fun _ => .error ())).requestSent =
      some (SDK.buildBody "command_exec" "rm" []
        ⟨"sdk-client", ["agent"], "sdk", "", []⟩)) :=
  claim_C5_only_allow_cached ⟨"open", 5, 1000⟩ [] 0 1 2 "command_exec" "rm"
    [] ⟨"sdk-client", ["agent"], "sdk", "", []⟩ true
    (.ok { decision := some "deny", rule_id := some "rule-1" })
    (fun _ => .error ())
    { decision := some "deny", rule_id := some "rule-1" } (by decide)

/-- C6: a cache entry read at or past the TTL boundary
(`now - recorded_at >= cache_ttl`) is a miss and is removed from the
cache, and that evaluate call sends a fresh evaluate request, whatever
the transport then does. -/
theorem claim_C6_ttl_expiry_is_miss
    (cfg : Config) (now ts : Int) (action_type action_name : String)
    (args : ArgList) (ctx : SDK.ReqContext) (rod : Bool) (resp : RespData)
    (hexp : cfg.cache_ttl ≤ now - ts) :
    cacheLookup [(cacheKey action_type action_name args, resp, ts)]
        (cacheKey action_type action_name args) now cfg.cache_ttl =
      (none, []) ∧
    ∀ (transport : Except Unit RespData)
      (polls : Nat → Except Unit StatusData),
      (SDK.evaluate cfg [(cacheKey action_type action_name args, resp, ts)]
          now action_type action_name args ctx rod transport
          polls).requestSent =
        some (SDK.buildBody action_type action_name args ctx) := by
  have hlk := cacheLookup_singleton_expired
    (cacheKey action_type action_name args) resp ts now cfg.cache_ttl hexp
  exact ⟨hlk, fun transport polls =>
    SDK.evaluate_miss_sends cfg _ now action_type action_name args ctx rod
      transport polls (by rw [hlk])⟩

theorem claim_C6_ttl_expiry_is_miss_witness :
    cacheLookup [(cacheKey "command_exec" "echo" [],
        { decision := some "allow" }, 0)]
      (cacheKey "command_exec" "echo" []) 5 5 = (none, []) ∧
    ∀ (transport : Except Unit RespData)
      (polls : Nat → Except Unit StatusData),
      (SDK.evaluate ⟨"open", 5, 1000⟩
          [(cacheKey "command_exec" "echo" [], { decision := some "allow" }, 0)]
          5 "command_exec" "echo" [] ⟨"sdk-client", ["agent"], "sdk", "", []⟩
          true transport polls).requestSent =
        some (SDK.buildBody "command_exec" "echo" []
          ⟨"sdk-client", ["agent"], "sdk", "", []⟩) :=
  claim_C6_ttl_expiry_is_miss ⟨"open", 5, 1000⟩ 5 0 "command_exec" "echo" []
    ⟨"sdk-client", ["agent"], "sdk", "", []⟩ true { decision := some "allow" }
    (by decide)

/-- C10: the cache key depends only on the action type, name and
arguments; two evaluate calls that differ arbitrarily in identity,
destination, protocol, framework, `raise_on_deny` and poll behaviour share
the key, so an Allow decision cached by the first call is returned to the
second caller within the TTL without sending any request, whatever the
second call's transport would have answered. -/
theorem claim_C10_cache_shared_across_identities
    (fm : String) (ttl t0 t1 : Int) (action_type action_name : String)
    (args : ArgList) (ctx1 ctx2 : SDK.ReqContext) (rod1 rod2 : Bool)
    (polls1 polls2 : Nat → Except Unit StatusData)
    (respA : RespData) (transport2 : Except Unit RespData)
    (hdec : respA.decision.getD "allow" = "allow")
    (hfresh : t1 - t0 < ttl) :
    (SDK.evaluate ⟨fm, ttl, 1000⟩ [] t0 action_type action_name args ctx1
        rod1 (.ok respA) polls1).cache =
      [(cacheKey action_type action_name args, respA, t0)] ∧
    SDK.evaluate ⟨fm, ttl, 1000⟩
        (SDK.evaluate ⟨fm, ttl, 1000⟩ [] t0 action_type action_name args ctx1
          rod1 (.ok respA) polls1).cache
        t1 action_type action_name args ctx2 rod2 transport2 polls2 =
      ⟨.ret respA, [(cacheKey action_type action_name args, respA, t0)],
        none, false, 0⟩ := by
  have h2 : respA.decision.getD "allow" ≠ "approval_required" := by
    rw [hdec]; decide
  have h3 : ¬(respA.decision.getD "allow" = "deny" ∧ rod1 = true) := by
    rw [hdec]; simp
  have h1 : (SDK.evaluate ⟨fm, ttl, 1000⟩ [] t0 action_type action_name args
      ctx1 rod1 (.ok respA) polls1).cache =
      [(cacheKey action_type action_name args, respA, t0)] := by
    simp only [SDK.evaluate, cacheLookup_nil]
    rw [if_neg h2, if_neg h3, if_pos hdec]
    simp [cachePut, odSet, evict]
  refine ⟨h1, ?_⟩
  rw [h1]
  simp only [SDK.evaluate,
    cacheLookup_singleton_fresh (cacheKey action_type action_name args) respA
      t0 t1 ttl hfresh]

theorem claim_C10_cache_shared_across_identities_witness :
    (SDK.evaluate ⟨"open", 5, 1000⟩ [] 0 "http_request" "GET"
        [("url", "https://a.example/x")]
        ⟨"runtime-agent-1", ["agent"], "runtime", "langchain",
          [("domain", "a.example")]⟩
        true (.ok { decision := some "allow" }) (fun _ => .error ())).cache =
      [(cacheKey "http_request" "GET" [("url", "https://a.example/x")],
        { decision := some "allow" }, 0)] ∧
    SDK.evaluate ⟨"open", 5, 1000⟩
        (SDK.evaluate ⟨"open", 5, 1000⟩ [] 0 "http_request" "GET"
          [("url", "https://a.example/x")]
          ⟨"runtime-agent-1", ["agent"], "runtime", "langchain",
            [("domain", "a.example")]⟩
          true (.ok { decision := some "allow" }) (fun _ => .error ())).cache
        4 "http_request" "GET" [("url", "https://a.example/x")]
        ⟨"other-identity", ["admin", "reviewer"], "sdk", "", []⟩
        false (.error ()) (fun _ => .error ()) =
      ⟨.ret { decision := some "allow" },
        [(cacheKey "http_request" "GET" [("url", "https://a.example/x")],
          { decision := some "allow" }, 0)],
        none, false, 0⟩ :=
  claim_C10_cache_shared_across_identities "open" 5 0 4 "http_request" "GET"
    [("url", "https://a.example/x")]
    ⟨"runtime-agent-1", ["agent"], "runtime", "langchain",
      [("domain", "a.example")]⟩
    ⟨"other-identity", ["admin", "reviewer"], "sdk", "", []⟩ true false
    (fun _ => .error ()) (fun _ => .error ()) { decision := some "allow" }
    (.error ()) (by decide) (by decide)

theorem claim_C9_fallback_ignores_fail_mode_witness :
    SDK.evaluate ⟨"closed", 5, 1000⟩ [] 0 "command_exec" "ls" []
        ⟨"sdk-client", ["agent"], "sdk", "", []⟩ true
        (.ok { decision := some "maybe" }) (fun _ => .error ()) =
      ⟨.ret { decision := some "maybe" },
        if ({ decision := some "maybe" } : RespData).decision.getD "allow" = "allow"
          then [(cacheKey "command_exec" "ls" [],
            { decision := some "maybe" }, 0)] else [],
        some (SDK.buildBody "command_exec" "ls" []
          ⟨"sdk-client", ["agent"], "sdk", "", []⟩),
        false, 0⟩ :=
  claim_C9_fallback_ignores_fail_mode "closed" 5 0 "command_exec" "ls" []
    ⟨"sdk-client", ["agent"], "sdk", "", []⟩ true (fun _ => .error ())
    { decision := some "maybe" } (by decide) (by decide)

end SentinelGate
